import Mathlib

/-!
Verification of the service adapter modules in stabbedbybrick/services.

The development shallowly embeds the relevant parts of the six Python
service modules (CBC, DSCP, MY5, SBS, TUBI, iP).  Machine-level details
(HTTP transport, the AES block function, HMAC-SHA256, JSON parsing) that
the Python code delegates to libraries are taken as function parameters;
everything the modules compute themselves (base64 coding, CBC chaining,
PKCS7 unpadding, dict traversal, string munging, branch structure) is
embedded concretely and executably.
-/

namespace Py

/-- A Python scalar value as it appears in the JSON dicts the services
traverse.  vnone stands for None; dict.get of an absent key also yields
vnone, matching Python where absent-key get and a null value are
indistinguishable through dict.get. -/
inductive Val where
  | vnone
  | vstr (s : String)
  | vint (n : Int)
deriving DecidableEq, Repr

/-- Python truthiness for the embedded values. -/
def Val.truthy : Val → Bool
  | .vnone => false
  | .vstr s => s ≠ ""
  | .vint n => n ≠ 0

/-- A JSON object, as an association list (insertion order preserved,
as in Python dicts). -/
abbrev Dict := List (String × Val)

/-- Membership test, Python: key in d. -/
def Dict.hasKey (d : Dict) (k : String) : Bool :=
  d.any (fun kv => kv.1 == k)

/-- Python d.get(k): the value when present, None when absent. -/
def Dict.get (d : Dict) (k : String) : Val :=
  match d.find? (fun kv => kv.1 == k) with
  | some kv => kv.2
  | none => .vnone

/-- Python exceptions raised by the embedded fragments. -/
inductive Exc where
  | typeError
  | valueError
deriving DecidableEq, Repr

/-- Split a character list on a nonempty separator, Python str.split
semantics (also the semantics of String.splitOn); the fuel argument is
an upper bound on the input length, so the recursion is structural. -/
def splitAux (sep : List Char) : Nat → List Char → List Char → List (List Char)
  | 0, acc, _ => [acc.reverse]
  | _ + 1, acc, [] => [acc.reverse]
  | fuel + 1, acc, c :: t =>
    if sep.isPrefixOf (c :: t) then
      acc.reverse :: splitAux sep fuel [] ((c :: t).drop sep.length)
    else
      splitAux sep fuel (c :: acc) t

/-- Python hay.split(sep) for a nonempty separator. -/
def pySplit (hay sep : String) : List String :=
  (splitAux sep.toList hay.toList.length [] hay.toList).map String.mk

/-- Join strings with a separator, Python sep.join. -/
def pyJoin (sep : String) : List String → String
  | [] => ""
  | [x] => x
  | x :: y :: t => x ++ sep ++ pyJoin sep (y :: t)

/-- Python hay.startswith(pre). -/
def pyStartsWith (hay pre : String) : Bool :=
  pre.toList.isPrefixOf hay.toList

/-- Drop the first n characters of a string. -/
def strDrop (s : String) (n : Nat) : String :=
  String.mk (s.toList.drop n)

/-- Drop the last n characters of a string. -/
def strDropRight (s : String) (n : Nat) : String :=
  String.mk (s.toList.take (s.toList.length - n))

/-- Python str.lower on the character list (ASCII). -/
def pyLower (s : String) : String :=
  String.mk (s.toList.map Char.toLower)

/-- Numeric value of a list of decimal digits. -/
def digitsToNat (cs : List Char) : Nat :=
  cs.foldl (fun acc c => acc * 10 + (c.toNat - 48)) 0

/-- Lexicographic order on character lists. -/
def charListLt : List Char → List Char → Bool
  | [], [] => false
  | [], _ :: _ => true
  | _ :: _, [] => false
  | a :: as, b :: bs => if a < b then true else if b < a then false else charListLt as bs

/-- Python string comparison a < b: lexicographic on code points. -/
def pyStrLt (a b : String) : Bool :=
  charListLt a.toList b.toList

/-- Python substring test: needle in hay (for a nonempty needle). -/
def containsSubstr (hay needle : String) : Bool :=
  (pySplit hay needle).length ≥ 2

/-- Python int(v) on the embedded values: None raises TypeError, a
string of digits parses, any other string raises ValueError. -/
def pyInt : Val → Except Exc Int
  | .vnone => .error .typeError
  | .vint n => .ok n
  | .vstr s =>
      if s ≠ "" ∧ s.toList.all Char.isDigit then .ok (digitsToNat s.toList)
      else .error .valueError

/-- Python str.endswith, on the character lists of the strings. -/
def pyEndsWith (s suffix : String) : Bool :=
  suffix.toList.isSuffixOf s.toList

end Py

namespace B64

/-- Value of one base64 alphabet character (urlsafe swaps the two
symbol characters, exactly as in the base64 module). -/
def charVal (urlsafe : Bool) (c : Char) : Option Nat :=
  if 'A' ≤ c ∧ c ≤ 'Z' then some (c.toNat - 65)
  else if 'a' ≤ c ∧ c ≤ 'z' then some (c.toNat - 97 + 26)
  else if '0' ≤ c ∧ c ≤ '9' then some (c.toNat - 48 + 52)
  else if c = (if urlsafe then '-' else '+') then some 62
  else if c = (if urlsafe then '_' else '/') then some 63
  else none

/-- Reassemble 6-bit values into bytes, as base64 decoding does; a
trailing group of one value cannot occur in valid input. -/
def sextetsToBytes : List Nat → Option (List Nat)
  | [] => some []
  | [_] => none
  | [a, b] => some [a * 4 + b / 16]
  | [a, b, c] => some [a * 4 + b / 16, b % 16 * 16 + c / 4]
  | a :: b :: c :: d :: rest =>
      (sextetsToBytes rest).map
        (fun tl => (a * 4 + b / 16) :: (b % 16 * 16 + c / 4) :: (c % 4 * 64 + d) :: tl)

/-- base64.b64decode and base64.urlsafe_b64decode: strip the trailing
padding, map characters through the alphabet, regroup into bytes.
Invalid characters or an impossible length fail (binascii.Error). -/
def decode (urlsafe : Bool) (s : String) : Option (List Nat) :=
  let cs := ((s.toList.reverse.dropWhile (fun c => c = '=')).reverse)
  match cs.mapM (charVal urlsafe) with
  | none => none
  | some vals => sextetsToBytes vals

/-- One character of base64 output. -/
def encChar (urlsafe : Bool) (n : Nat) : Char :=
  if n < 26 then Char.ofNat (65 + n)
  else if n < 52 then Char.ofNat (97 + n - 26)
  else if n < 62 then Char.ofNat (48 + n - 52)
  else if n = 62 then (if urlsafe then '-' else '+')
  else (if urlsafe then '_' else '/')

/-- Byte stream to base64 characters with padding. -/
def encodeBytes (urlsafe : Bool) : List Nat → List Char
  | [] => []
  | [a] => [encChar urlsafe (a / 4), encChar urlsafe (a % 4 * 16), '=', '=']
  | [a, b] =>
      [encChar urlsafe (a / 4), encChar urlsafe (a % 4 * 16 + b / 16),
       encChar urlsafe (b % 16 * 4), '=']
  | a :: b :: c :: rest =>
      encChar urlsafe (a / 4) :: encChar urlsafe (a % 4 * 16 + b / 16) ::
      encChar urlsafe (b % 16 * 4 + c / 64) :: encChar urlsafe (c % 64) ::
      encodeBytes urlsafe rest

/-- base64.urlsafe_b64encode followed by .decode(). -/
def urlsafeEncode (bs : List Nat) : String :=
  String.mk (encodeBytes true bs)

end B64

namespace Crypto

/-- CBC-mode decryption chaining: each plaintext block is the block
decryption of the ciphertext block xored with the previous ciphertext
block (the IV for the first).  D is the block cipher decryption under
the session key.  The recursion peels one 16-byte block per step; a
nonempty leftover below the block size cannot occur, because the
callers only reach this function when the input length is a multiple
of the block size. -/
def cbcChain (D : List Nat → List Nat) (prev : List Nat) :
    List Nat → List Nat
  | b0 :: b1 :: b2 :: b3 :: b4 :: b5 :: b6 :: b7 ::
    b8 :: b9 :: b10 :: b11 :: b12 :: b13 :: b14 :: b15 :: rest =>
      let blk := [b0, b1, b2, b3, b4, b5, b6, b7,
                  b8, b9, b10, b11, b12, b13, b14, b15]
      List.zipWith Nat.xor (D blk) prev ++ cbcChain D blk rest
  | _ => []

/-- AES.new(key, iv, MODE_CBC) followed by cipher.decrypt(data): the
constructor insists on a 16-byte IV and decrypt on a multiple of the
block size (ValueError otherwise). -/
def aesCbcDecrypt (D : List Nat → List Nat) (iv ct : List Nat) : Option (List Nat) :=
  if iv.length = 16 ∧ ct.length % 16 = 0 then some (cbcChain D iv ct) else none

/-- Crypto.Util.Padding.unpad with PKCS7 and block size 16: the last
byte gives the padding length, which must be between 1 and the block
size and match every padding byte; the input must be a nonempty
multiple of the block size. -/
def unpad (data : List Nat) : Option (List Nat) :=
  if data = [] ∨ data.length % 16 ≠ 0 then none
  else
    let p := data.getLastD 0
    if p < 1 ∨ p > 16 then none
    else if data.drop (data.length - p) = List.replicate p p then
      some (data.take (data.length - p))
    else none

end Crypto

namespace MY5

/-- The fields of the media API response that decrypt_data reads:
the HTTP ok flag, the iv and data body fields, and the message field
used in the error path. -/
structure ApiResponse where
  ok : Bool
  iv : String
  data : String
  message : Option String
deriving DecidableEq, Repr

/-- Exceptions escaping from the MY5 service fragments. -/
inductive Err where
  | connectionError (msg : Option String)
  | binasciiError
  | valueError
  | jsonError
  | indexError
deriving DecidableEq, Repr

/-- MY5.decrypt_data (src/services/MY5/init, lines 176-190).  The AES
block decryption keyed by the session key is the parameter D (key then
block), and json.loads is the parameter jsonLoads; everything else is
the embedded code: decode the gist key with standard base64, fail with
ConnectionError(message) on a non-ok response, urlsafe-decode the iv
and data fields, CBC-decrypt, PKCS7-unpad, JSON-parse. -/
def decrypt_data {α : Type} (D : List Nat → List Nat → List Nat)
    (jsonLoads : List Nat → Option α)
    (gistKey : String) (r : ApiResponse) : Except Err α :=
  match B64.decode false gistKey with
  | none => .error .binasciiError
  | some key =>
    if ¬ r.ok then .error (.connectionError r.message)
    else
      match B64.decode true r.iv with
      | none => .error .binasciiError
      | some iv =>
        match B64.decode true r.data with
        | none => .error .binasciiError
        | some data =>
          match Crypto.aesCbcDecrypt (D key) iv data with
          | none => .error .valueError
          | some plain =>
            match Crypto.unpad plain with
            | none => .error .valueError
            | some unpadded =>
              match jsonLoads unpadded with
              | none => .error .jsonError
              | some j => .ok j

/-- UTF-8 bytes of a string, Python str.encode(). -/
def strBytes (s : String) : List Nat :=
  s.toUTF8.toList.map (fun b => b.toNat)

/-- The request signing of MY5.get_playlist (lines 195-199): format the
vod endpoint, compute the HMAC-SHA256 digest of the URL keyed with the
base64-decoded gist hmac secret, append it urlsafe-base64-encoded after
the auth query parameter.  hmacSha256 stands for
hmac.new(key, msg, sha256).digest(). -/
def signedVodUrl (hmacSha256 : List Nat → List Nat → List Nat)
    (secret : List Nat) (vodFormat : String → String → String)
    (assetId timestamp : String) : String :=
  let vod := vodFormat assetId timestamp
  let auth := B64.urlsafeEncode (hmacSha256 secret (strBytes vod))
  vod ++ "&auth=" ++ auth

/-- Components of a parsed URL, as returned by urllib.parse.urlparse
for the http URLs this service handles (the params component, split
from a semicolon in the last path segment, is not modelled). -/
structure UrlParts where
  scheme : String
  netloc : String
  path : String
  query : String
  fragment : String
deriving DecidableEq, Repr

/-- urlparse for an absolute http(s) URL: scheme before the separator,
netloc up to the first slash, then path, query and fragment. -/
def urlparse (s : String) : UrlParts :=
  match Py.pySplit s "://" with
  | [_] =>
      { scheme := "", netloc := "", path := s, query := "", fragment := "" }
  | scheme :: restParts =>
      let rest := Py.pyJoin "://" restParts
      let slashIdx := (rest.toList.takeWhile (fun c => c ≠ '/')).length
      let netloc := String.mk (rest.toList.take slashIdx)
      let after := String.mk (rest.toList.drop slashIdx)
      match Py.pySplit after "#" with
      | pq :: fragParts =>
        let fragment := Py.pyJoin "#" fragParts
        match Py.pySplit pq "?" with
        | path :: qParts =>
          { scheme := scheme, netloc := netloc, path := path,
            query := Py.pyJoin "?" qParts, fragment := fragment }
        | [] =>
          { scheme := scheme, netloc := netloc, path := "", query := "",
            fragment := fragment }
      | [] =>
        { scheme := scheme, netloc := netloc, path := after, query := "",
          fragment := "" }
  | [] => { scheme := "", netloc := "", path := "", query := "", fragment := "" }

/-- urllib.parse.urlunparse on the modelled components. -/
def urlunparse (u : UrlParts) : String :=
  u.scheme ++ "://" ++ u.netloc ++ u.path ++
  (if u.query ≠ "" then "?" ++ u.query else "") ++
  (if u.fragment ≠ "" then "#" ++ u.fragment else "")

/-- One rendition of a playlist asset. -/
structure Rendition where
  url : String
deriving DecidableEq, Repr

/-- One asset of the decrypted playlist data. -/
structure Asset where
  drm : String
  renditions : List Rendition
  keyserver : String
deriving DecidableEq, Repr

/-- The decrypted playlist payload. -/
structure PlaylistData where
  assets : List Asset
deriving DecidableEq, Repr

/-- The manifest URL munging of get_playlist lines 208-212: split the
path, truncate the last segment at the first dash and the first
underscore, reassemble, and append .mpd when the result does not end
with mpd. -/
def manifestOfMpdUrl (mpd_url : String) : String :=
  let parse := urlparse mpd_url
  let path := Py.pySplit parse.path "/"
  let lastSeg :=
    (Py.pySplit ((Py.pySplit (path.getLastD "") "-").headD "") "_").headD ""
  let path2 := path.dropLast ++ [lastSeg]
  let manifest := urlunparse { parse with path := Py.pyJoin "/" path2 }
  if ¬ Py.pyEndsWith manifest "mpd" then manifest ++ ".mpd" else manifest

/-- MY5.get_playlist (lines 192-214).  The hmac primitive, the vod
endpoint template from the config file, and the decrypt_data call on
the signed URL (an HTTP round trip) are parameters; the signing, the
widevine asset selection and the manifest munging are embedded. -/
def get_playlist (hmacSha256 : List Nat → List Nat → List Nat)
    (decryptData : String → Except Err PlaylistData)
    (vodFormat : String → String → String)
    (gistHmac : String) (assetId timestamp : String) :
    Except Err (String × String) :=
  match B64.decode false gistHmac with
  | none => .error .binasciiError
  | some secret =>
    let vod := signedVodUrl hmacSha256 secret vodFormat assetId timestamp
    match decryptData vod with
    | .error e => .error e
    | .ok data =>
      match data.assets.filter (fun x => x.drm == "widevine") with
      | [] => .error .indexError
      | asset :: _ =>
        match asset.renditions with
        | [] => .error .indexError
        | rendition :: _ =>
          .ok (manifestOfMpdUrl rendition.url, asset.keyserver)

/-- The season and number computation of the series branch of
MY5.get_titles (lines 141-142): both conditionals test sea_num, so the
ep_num conversion runs exactly when sea_num is truthy. -/
def episodeSeasonNumber (ep : Py.Dict) : Except Py.Exc (Int × Int) :=
  let sea := ep.get "sea_num"
  match (if sea.truthy then Py.pyInt sea else .ok 0) with
  | .error e => .error e
  | .ok season =>
    match (if sea.truthy then Py.pyInt (ep.get "ep_num") else .ok 0) with
    | .error e => .error e
    | .ok number => .ok (season, number)

end MY5

namespace CBC

/-- Outcomes of the request helpers: a raised exception or a process
exit (sys.exit). -/
inductive ReqErr where
  | connectionError (msg : String)
  | exit (code : Nat)
deriving DecidableEq, Repr

/-- The parts of an HTTP response the helpers inspect: the status code,
the JSON object of the body when it parses (none models a
JSONDecodeError), and the raw text. -/
structure HttpResponse where
  status : Nat
  body : Option Py.Dict
  text : String
deriving DecidableEq, Repr

/-- The error keys probed by CBC._request, in order. -/
def error_keys : List String :=
  ["errorMessage", "ErrorMessage", "ErrorCode", "errorCode", "error"]

/-- Python next((data.get(key) for key in error_keys if key in data), None):
the value of the first key of the list present in the dict, None when
none is. -/
def firstErrorValue (data : Py.Dict) : Py.Val :=
  match error_keys.filter (fun k => data.hasKey k) with
  | [] => .vnone
  | k :: _ => data.get k

/-- CBC._request (src/services/CBC/init, lines 289-311), after the send:
a status outside 200 and 426 raises ConnectionError; an unparsable body
raises ConnectionError; a truthy first error value logs and exits with
status 1; otherwise the parsed dict is returned. -/
def request (r : HttpResponse) : Except ReqErr Py.Dict :=
  if r.status ≠ 200 ∧ r.status ≠ 426 then
    .error (.connectionError (Nat.repr r.status ++ " - " ++ r.text))
  else
    match r.body with
    | none => .error (.connectionError r.text)
    | some data =>
      if (firstErrorValue data).truthy then .error (.exit 1)
      else .ok data

/-- A stored credential. -/
structure Credential where
  username : String
  password : String
deriving DecidableEq, Repr

/-- The login response fields authenticate reads. -/
structure LoginData where
  access_token : String
  refresh_token : String
  expires_in : Nat
deriving DecidableEq, Repr

/-- The token-exchange response fields authenticate reads. -/
structure AccessData where
  accessToken : String
  accessTokenExpiresIn : Nat
deriving DecidableEq, Repr

/-- A devine cache slot as authenticate uses it: possibly empty, with
an expiry flag; the object is truthy exactly when it holds data. -/
structure CacheEntry (α : Type) where
  data : Option α
  expired : Bool
deriving DecidableEq, Repr

/-- The JSON payload of the loginradius login request. -/
structure LoginPayload where
  email : String
  password : String
  refresh_token : Option String
deriving DecidableEq, Repr

/-- What a run of authenticate did: the login request payload when one
was sent, the auth and access tokens that flowed through, and the value
set on the x-claims-token session header at the end. -/
structure AuthResult where
  loginRequest : Option LoginPayload
  authTokenUsed : String
  accessTokenUsed : String
  claimsHeader : String
deriving DecidableEq, Repr

/-- Exceptions of authenticate. -/
inductive AuthErr where
  | environmentError
deriving DecidableEq, Repr

/-- CBC.authenticate (lines 83-144).  The three HTTP round trips are
parameters: loginApi is the loginradius login POST, accessApi is
CBC.access_token, claimsApi is CBC.claims_token.  The branch structure
over the credential and the two cache slots is embedded: no credential
raises EnvironmentError; a cached unexpired login skips the login
request; an expired one re-sends it with the cached refresh_token; an
empty slot sends email and password only; the access token comes from
its own cache slot or a fresh exchange; the run ends by fetching a
claims token for the access token and setting the header. -/
def authenticate (loginApi : LoginPayload → LoginData)
    (accessApi : String → AccessData) (claimsApi : String → String)
    (credential : Option Credential)
    (login : CacheEntry LoginData) (tokens : CacheEntry AccessData) :
    Except AuthErr AuthResult :=
  match credential with
  | none => .error .environmentError
  | some cred =>
    let step :=
      match login.data, login.expired with
      | some d, false => (d.access_token, (none : Option LoginPayload))
      | some d, true =>
        let payload : LoginPayload :=
          { email := cred.username, password := cred.password,
            refresh_token := some d.refresh_token }
        ((loginApi payload).access_token, some payload)
      | none, _ =>
        let payload : LoginPayload :=
          { email := cred.username, password := cred.password,
            refresh_token := none }
        ((loginApi payload).access_token, some payload)
    let auth_token := step.1
    let access_token :=
      match tokens.data, tokens.expired with
      | some t, false => t.accessToken
      | some _, true => (accessApi auth_token).accessToken
      | none, _ => (accessApi auth_token).accessToken
    let claims_token := claimsApi access_token
    .ok { loginRequest := step.2, authTokenUsed := auth_token,
          accessTokenUsed := access_token, claimsHeader := claims_token }

/-- One asset of a show response (the fields _show and _movie read). -/
structure ShowAsset where
  id : String
  title : Option String
  season : Option Int
  episode : Option Int
  isTrailer : Bool
deriving DecidableEq, Repr

/-- One season of a show response. -/
structure ShowSeason where
  title : Option String
  assets : List ShowAsset
deriving DecidableEq, Repr

/-- A show response. -/
structure ShowData where
  title : Option String
  seasons : List ShowSeason
deriving DecidableEq, Repr

/-- The fields of a devine Episode object that _show fills. -/
structure EpisodeObj where
  id : String
  title : Option String
  season : Int
  number : Int
  name : Option String
deriving DecidableEq, Repr

/-- The fields of a devine Movie object that _movie fills. -/
structure MovieObj where
  id : String
  name : Option String
deriving DecidableEq, Repr

/-- CBC._show (lines 229-245): flatten the assets of every season,
dropping trailers, and build an Episode for each with
int(episode.get(season, 0)) and int(episode.get(episode, 0)). -/
def show_ (data : ShowData) : List EpisodeObj :=
  let episodes :=
    data.seasons.flatMap (fun season => season.assets.filter (fun e => !e.isTrailer))
  episodes.map (fun e =>
    { id := e.id, title := data.title, season := e.season.getD 0,
      number := e.episode.getD 0, name := e.title })

/-- CBC._movie (lines 247-258): flatten the assets of every season,
dropping trailers, and build a Movie for each. -/
def movie_ (data : ShowData) : List MovieObj :=
  let movies :=
    data.seasons.flatMap (fun season => season.assets.filter (fun m => !m.isTrailer))
  movies.map (fun m => { id := m.id, name := data.title })

/-- The leading run of characters allowed in the id group of the
CBC title regex. -/
def idRun (s : String) : String :=
  String.mk (s.toList.takeWhile (fun c =>
    c.isAlpha ∨ c.isDigit ∨ c = '_' ∨ c = '-'))

/-- The optional URL heads of the CBC title regex
(https?://(www.)?gem.cbc.ca/, with the dots read literally). -/
def gemUrlHeads : List String :=
  ["https://www.gem.cbc.ca/", "https://gem.cbc.ca/",
   "http://www.gem.cbc.ca/", "http://gem.cbc.ca/"]

/-- The id group of re.match on the CBC title regex (line 147): the
regex engine first tries to consume the optional URL prefix and match a
nonempty id run after it; when that fails it backtracks to matching the
id run at the start of the string; no id run at all means no match. -/
def parseTitleId (s : String) : Option String :=
  match gemUrlHeads.find? (fun p => Py.pyStartsWith s p) with
  | some p =>
    let afterRun := idRun (Py.strDrop s p.length)
    if afterRun ≠ "" then some afterRun
    else if idRun s ≠ "" then some (idRun s) else none
  | none =>
    if idRun s ≠ "" then some (idRun s) else none

/-- The classification get_titles returns, or the exception it raises. -/
inductive TitlesResult where
  | movies (l : List MovieObj)
  | series (l : List EpisodeObj)
  | valueError
  | pyError
deriving DecidableEq, Repr

/-- CBC.get_titles (lines 146-162).  fetch stands for the show request
on the parsed id.  A failed id parse raises ValueError; an empty
seasons list or a missing first-season title makes the label access
raise (pyError); a label lowercasing to film or movie yields Movies via
_movie, anything else Series via _show. -/
def get_titles (fetch : String → ShowData) (title : String) : TitlesResult :=
  match parseTitleId title with
  | none => .valueError
  | some tid =>
    let data := fetch tid
    match data.seasons with
    | [] => .pyError
    | s0 :: _ =>
      match s0.title with
      | none => .pyError
      | some label =>
        if Py.pyLower label = "film" ∨ Py.pyLower label = "movie" then
          .movies (movie_ data)
        else
          .series (show_ data)

end CBC

namespace SBS

/-- SBS._request (src/services/SBS/init, lines 204-217), after the
send: any status other than 200 raises ConnectionError with the
response text; a body that parses as JSON is returned as a dict, an
unparsable body is returned as the raw text. -/
def request (r : CBC.HttpResponse) : Except CBC.ReqErr (Py.Dict ⊕ String) :=
  if r.status ≠ 200 then .error (.connectionError r.text)
  else
    match r.body with
    | some data => .ok (.inl data)
    | none => .ok (.inr r.text)

/-- The entity alternatives of the get_titles URL regex, in pattern
order; none is a prefix of another, so at most one can match at the
position after the fixed prefix. -/
def entityAlternatives : List String :=
  ["tv-series", "tv-program", "sports-series", "movie", "watch"]

/-- The fixed leading part of the get_titles URL regex (dots read
literally). -/
def ondemandBase : String := "https://www.sbs.com.au/ondemand/"

/-- Python str.isdigit restricted to ASCII digits. -/
def isdigit (s : String) : Bool :=
  s ≠ "" ∧ s.toList.all Char.isDigit

/-- The regex.search of SBS.get_titles (lines 89-96): the anchored
pattern requires the fixed prefix, one entity alternative, a slash
(optionally with more path in between), and a nonempty final segment
as the id group, with one optional trailing slash. -/
def matchTitle (s : String) : Option (String × String) :=
  if Py.pyStartsWith s ondemandBase then
    let rest := Py.strDrop s ondemandBase.length
    match entityAlternatives.find? (fun e => Py.pyStartsWith rest e) with
    | none => none
    | some e =>
      let rem := Py.strDrop rest e.length
      if Py.pyStartsWith rem "/" then
        let core :=
          if Py.pyEndsWith rem "/" ∧ rem.length > 1 then Py.strDropRight rem 1
          else rem
        let segs := Py.pySplit core "/"
        let id := segs.getLastD ""
        if id ≠ "" then some (e, id) else none
      else none
  else none

/-- What SBS.get_titles produces for a given URL: a Movies or Series
classification, the implicit None of complete fall-through, or the
ValueError raised on a regex mismatch. -/
inductive TitlesResult where
  | movies
  | series
  | noneResult
  | valueError
deriving DecidableEq, Repr

/-- SBS.get_titles (lines 88-112), with the downstream metadata
requests abstracted away: the branch conditions on the entity type and
the digit test of the id decide the classification, and a URL that
matches the pattern but satisfies no branch falls off the end of the
function, returning None. -/
def get_titles (url : String) : TitlesResult :=
  match matchTitle url with
  | none => .valueError
  | some (entity_type, entity_id) =>
    if (entity_type = "movie" ∨ entity_type = "tv-program") ∧ isdigit entity_id then
      .movies
    else if isdigit entity_id then
      .series
    else if entity_type = "tv-series" ∨ entity_type = "sports-series" then
      .series
    else
      .noneResult

end SBS

namespace DSCP

/-- One entry of the errors array of a playback response. -/
structure ApiError where
  code : String
deriving DecidableEq, Repr

/-- Outcomes of the error branch of get_tracks. -/
inductive TracksErr where
  | exit (code : Nat)
  | connectionError (errors : List ApiError)
  | indexError
deriving DecidableEq, Repr

/-- The error handling of DSCP.get_tracks (src/services/DSCP/init,
lines 266-275): when the response carries an errors key, a first error
code containing missingpackage or invalid.token logs and exits with
status 1, and any other reported error raises ConnectionError with the
errors array; without an errors key the function proceeds. -/
def tracksErrorCheck (errors : Option (List ApiError)) : Except TracksErr Unit :=
  match errors with
  | none => .ok ()
  | some errs =>
    match errs with
    | [] => .error .indexError
    | e0 :: _ =>
      if Py.containsSubstr e0.code "missingpackage" then .error (.exit 1)
      else if Py.containsSubstr e0.code "invalid.token" then .error (.exit 1)
      else .error (.connectionError errs)

end DSCP

namespace IP

/-- The worker bound of the thread pool in iP.get_episodes
(ThreadPoolExecutor(max_workers=10), line 363). -/
def max_workers : Nat := 10

/-- iP.get_episodes (src/services/iP/init, lines 362-365): map
fetch_episode over the episode ids through executor.map, which yields
results in input order, then keep the tasks that are not None. -/
def get_episodes {α β : Type} (fetch : α → Option β) (episodes : List α) :
    List (Option β) :=
  let tasks := episodes.map fetch
  tasks.filter (fun task => task.isSome)

/-- The behaviour the spec sentence describes: a sequential map of
fetch_episode over the list, in order, with the None results removed. -/
def get_episodes_sequential {α β : Type} (fetch : α → Option β)
    (episodes : List α) : List β :=
  episodes.filterMap fetch

/-- One media object of a check_all_versions response list: the kind
and the height field read by the quality cap (none models an absent
height; the height values of interest are decimal strings). -/
structure Conn where
  kind : String
  height : Option String
deriving DecidableEq, Repr

/-- The quality list of iP.get_tracks line 164: every truthy height
field of every connection of every media list, in order. -/
def qualityList (connections : List (List Conn)) : List String :=
  connections.flatMap (fun i =>
    i.filterMap (fun c =>
      match c.height with
      | some h => if h ≠ "" then some h else none
      | none => none))

/-- Python max(iterable, default=None) on strings: the lexicographic
maximum, or the default for an empty iterable. -/
def pyMaxString (l : List String) : Option String :=
  l.foldl (fun acc h =>
    match acc with
    | none => some h
    | some m => if Py.pyStrLt m h then some h else some m) none

/-- The max_quality of iP.get_tracks line 165: the maximum of the
heights lexicographically below the string 1080, as strings. -/
def max_quality (connections : List (List Conn)) : Option String :=
  pyMaxString ((qualityList connections).filter (fun h => Py.pyStrLt h "1080"))

/-- The media selection of lines 167-170: the first media list holding
a connection whose height field equals max_quality under Python
equality (None equals None). -/
def media (connections : List (List Conn)) : Option (List Conn) :=
  connections.find? (fun i => i.any (fun c => c.height == max_quality connections))

/-- Exit of the selection guard at lines 172-174. -/
inductive SelErr where
  | exit (code : Nat)
deriving DecidableEq, Repr

/-- The quality-cap and selection prefix of iP.get_tracks (lines
163-174): compute max_quality, pick the first matching media list, and
exit with status 1 when there is none. -/
def selectMedia (connections : List (List Conn)) : Except SelErr (List Conn) :=
  match media connections with
  | none => .error (.exit 1)
  | some m => .ok m

end IP

namespace Services

/-- The six provider modules of the repository. -/
def modules : List String := ["CBC", "DSCP", "MY5", "SBS", "TUBI", "iP"]

/-- AES decrypt calls performed by one run of MY5.decrypt_data: the
single cipher.decrypt at src/services/MY5/init line 189. -/
def my5DecryptDataAesCalls : Nat := 1

/-- AES decrypt calls in MY5 title-request processing: get_playlist
calls decrypt_data once (line 201) and performs no other decryption. -/
def my5TitleRequestAesCalls : Nat := my5DecryptDataAesCalls

/-- AES decrypt calls each module performs itself while serving a title
request.  Only MY5 imports an AES primitive (Crypto.Cipher.AES) and
calls it; the sources of CBC, DSCP, SBS, TUBI and iP contain no
decryption call of their own (AES-128 HLS stream decryption happens in
the host framework, outside this repository). -/
def aesDecryptCalls : String → Nat
  | "MY5" => my5TitleRequestAesCalls
  | _ => 0

end Services

section Helpers

/-- A dict without the key yields vnone from get. -/
theorem Py.Dict.get_of_not_hasKey (d : Py.Dict) (k : String)
    (h : d.hasKey k = false) : d.get k = .vnone := by
  unfold Py.Dict.get
  have hfind : d.find? (fun kv => kv.1 == k) = none := by
    apply List.find?_eq_none.mpr
    intro kv hkv hbeq
    have : d.any (fun kv => kv.1 == k) = true := List.any_eq_true.mpr ⟨kv, hkv, hbeq⟩
    rw [Py.Dict.hasKey] at h
    simp [this] at h
  rw [hfind]

/-- Appending .mpd makes a string end with mpd. -/
theorem pyEndsWith_append_mpd (s : String) :
    Py.pyEndsWith (s ++ ".mpd") "mpd" = true := by
  unfold Py.pyEndsWith
  rw [List.isSuffixOf_iff_suffix]
  refine ⟨s.toList ++ ['.'], ?_⟩
  have h : (s ++ ".mpd").toList = s.toList ++ ".mpd".toList := by
    simp [String.toList]
  rw [h, List.append_assoc]
  rfl

/-- The final step of the munging: append .mpd unless the string
already ends with mpd; either way the result ends with mpd. -/
theorem appendMpd_endsWith (m : String) :
    Py.pyEndsWith (if ¬ Py.pyEndsWith m "mpd" then m ++ ".mpd" else m) "mpd"
      = true := by
  by_cases h : Py.pyEndsWith m "mpd" = true
  · simp [h]
  · simp only [Bool.not_eq_true] at h
    simp [h, pyEndsWith_append_mpd]

/-- The manifest URL produced by the munging of get_playlist always
ends with mpd: either it already did, or .mpd was appended. -/
theorem manifestOfMpdUrl_endsWith (s : String) :
    Py.pyEndsWith (MY5.manifestOfMpdUrl s) "mpd" = true := by
  unfold MY5.manifestOfMpdUrl
  exact appendMpd_endsWith _

/-- Filtering distributes over flatMap. -/
theorem filter_flatMap_comm {α β : Type} (l : List α) (f : α → List β)
    (p : β → Bool) :
    l.flatMap (fun x => (f x).filter p) = (l.flatMap f).filter p := by
  induction l with
  | nil => rfl
  | cons a tl ih => simp [List.filter_append, ih]

end Helpers

/-- C1: for every gist key and every API response carrying
urlsafe-base64 iv and data fields, MY5.decrypt_data returns the JSON
parse of the PKCS7-unpadded AES-CBC decryption of the base64-decoded
data field under the base64-decoded key and the given IV; and for
every response whose HTTP status is not ok it raises ConnectionError
carrying the message field of the response instead of returning. -/
theorem my5_decrypt_data_spec {α : Type}
    (D : List Nat → List Nat → List Nat) (jsonLoads : List Nat → Option α)
    (K : String) (key : List Nat) (r : MY5.ApiResponse)
    (hK : B64.decode false K = some key) :
    (r.ok = false →
      MY5.decrypt_data D jsonLoads K r = .error (.connectionError r.message)) ∧
    (∀ iv data plain unpadded j,
      r.ok = true →
      B64.decode true r.iv = some iv →
      B64.decode true r.data = some data →
      Crypto.aesCbcDecrypt (D key) iv data = some plain →
      Crypto.unpad plain = some unpadded →
      jsonLoads unpadded = some j →
      MY5.decrypt_data D jsonLoads K r = .ok j) := by
  constructor
  · intro hok
    unfold MY5.decrypt_data
    rw [hK]
    simp [hok]
  · intro iv data plain unpadded j hok hiv hdata hcbc hun hj
    unfold MY5.decrypt_data
    rw [hK]
    simp [hok, hiv, hdata, hcbc, hun, hj]

/-- Witness for C1: a concrete run through both branches of the
theorem, with a block cipher returning a full padding block. -/
theorem my5_decrypt_data_spec_witness :
    MY5.decrypt_data (fun _ _ => List.replicate 16 16)
      (fun l => some l) ""
      { ok := true, iv := "AAAAAAAAAAAAAAAAAAAAAA==",
        data := "AAAAAAAAAAAAAAAAAAAAAA==", message := none } = .ok [] ∧
    MY5.decrypt_data (fun _ _ => List.replicate 16 16)
      (fun l => some l) ""
      { ok := false, iv := "", data := "", message := some "denied" } =
      .error (.connectionError (some "denied")) := by
  constructor
  · exact (my5_decrypt_data_spec _ _ "" [] _ (by decide)).2
      (List.replicate 16 0) (List.replicate 16 0) (List.replicate 16 16) [] []
      rfl (by decide) (by decide) (by decide) (by decide) rfl
  · exact (my5_decrypt_data_spec _ _ "" [] _ (by decide)).1 rfl

/-- C2: for every asset id and timestamp, MY5.get_playlist signs the
request by appending an auth query parameter holding the urlsafe-base64
encoding of the HMAC-SHA256 digest of the exact VOD URL string keyed
with the base64-decoded gist hmac secret; it returns as license URL the
keyserver of the first asset whose drm equals widevine, and the
manifest URL it returns always ends with mpd (the last path segment
truncated at the first dash or underscore, with .mpd appended when
missing). -/
theorem my5_get_playlist_spec
    (hmacSha256 : List Nat → List Nat → List Nat)
    (decryptData : String → Except MY5.Err MY5.PlaylistData)
    (vodFormat : String → String → String)
    (gistHmac : String) (secret : List Nat) (assetId timestamp : String)
    (data : MY5.PlaylistData) (a : MY5.Asset) (arest : List MY5.Asset)
    (r0 : MY5.Rendition) (rs : List MY5.Rendition)
    (hsec : B64.decode false gistHmac = some secret)
    (hdec : decryptData
      (MY5.signedVodUrl hmacSha256 secret vodFormat assetId timestamp) = .ok data)
    (hwv : data.assets.filter (fun x => x.drm == "widevine") = a :: arest)
    (hrend : a.renditions = r0 :: rs) :
    MY5.signedVodUrl hmacSha256 secret vodFormat assetId timestamp =
      vodFormat assetId timestamp ++ "&auth=" ++
        B64.urlsafeEncode
          (hmacSha256 secret (MY5.strBytes (vodFormat assetId timestamp))) ∧
    MY5.get_playlist hmacSha256 decryptData vodFormat gistHmac assetId timestamp =
      .ok (MY5.manifestOfMpdUrl r0.url, a.keyserver) ∧
    Py.pyEndsWith (MY5.manifestOfMpdUrl r0.url) "mpd" = true := by
  refine ⟨rfl, ?_, manifestOfMpdUrl_endsWith _⟩
  unfold MY5.get_playlist
  rw [hsec]
  simp only [hdec, hwv, hrend]

/-- Witness for C2: a concrete playlist with one widevine asset. -/
theorem my5_get_playlist_spec_witness :
    MY5.get_playlist (fun _ _ => [0]) (fun _ => .ok
        { assets := [{ drm := "widevine",
                       renditions := [{ url := "https://h/p/seg-a_b" }],
                       keyserver := "https://lic" }] })
      (fun i t => "https://vod/" ++ i ++ "/" ++ t) "" "id1" "ts1" =
      .ok ("https://h/p/seg.mpd", "https://lic") := by
  have h := my5_get_playlist_spec (fun _ _ => [0]) (fun _ => .ok
      { assets := [{ drm := "widevine",
                     renditions := [{ url := "https://h/p/seg-a_b" }],
                     keyserver := "https://lic" }] })
    (fun i t => "https://vod/" ++ i ++ "/" ++ t) "" [] "id1" "ts1"
    { assets := [{ drm := "widevine",
                   renditions := [{ url := "https://h/p/seg-a_b" }],
                   keyserver := "https://lic" }] }
    { drm := "widevine", renditions := [{ url := "https://h/p/seg-a_b" }],
      keyserver := "https://lic" } [] { url := "https://h/p/seg-a_b" } []
    (by decide) rfl (by decide) rfl
  have hman : MY5.manifestOfMpdUrl "https://h/p/seg-a_b" = "https://h/p/seg.mpd" := by
    decide
  rw [h.2.1, hman]

/-- C3 counterexample: a 200 response whose JSON body contains the
error key with a null value.  The body contains one of the probed
error keys, yet CBC._request neither raises nor exits: the falsy value
makes it return the data as a normal value. -/
theorem cbc_request_null_error_counterexample :
    "error" ∈ CBC.error_keys ∧
    Py.Dict.hasKey [("error", Py.Val.vnone)] "error" = true ∧
    CBC.request { status := 200, body := some [("error", Py.Val.vnone)], text := "" }
      = .ok [("error", Py.Val.vnone)] := by
  refine ⟨by decide, by decide, ?_⟩
  rfl

/-- C3 amended: CBC._request raises ConnectionError for every status
outside 200 and 426, and on a parsed body it exits with status 1
exactly when the value of the first present probed error key is
truthy; SBS._request raises ConnectionError for every non-200 status;
DSCP.get_tracks exits with status 1 when the first reported error code
contains missingpackage or invalid.token and raises ConnectionError
for every other reported error. -/
theorem services_error_paths :
    (∀ r : CBC.HttpResponse, r.status ≠ 200 → r.status ≠ 426 →
      ∃ msg, CBC.request r = .error (.connectionError msg)) ∧
    (∀ (r : CBC.HttpResponse) (data : Py.Dict), r.body = some data →
      (r.status = 200 ∨ r.status = 426) →
      (CBC.request r = .error (.exit 1) ↔ (CBC.firstErrorValue data).truthy = true)) ∧
    (∀ r : CBC.HttpResponse, r.status ≠ 200 →
      ∃ msg, SBS.request r = .error (.connectionError msg)) ∧
    (∀ (e0 : DSCP.ApiError) (tl : List DSCP.ApiError),
      ((Py.containsSubstr e0.code "missingpackage" = true ∨
        Py.containsSubstr e0.code "invalid.token" = true) →
        DSCP.tracksErrorCheck (some (e0 :: tl)) = .error (.exit 1)) ∧
      (Py.containsSubstr e0.code "missingpackage" = false →
        Py.containsSubstr e0.code "invalid.token" = false →
        DSCP.tracksErrorCheck (some (e0 :: tl)) =
          .error (.connectionError (e0 :: tl)))) := by
  refine ⟨?_, ?_, ?_, ?_⟩
  · intro r h200 h426
    exact ⟨Nat.repr r.status ++ " - " ++ r.text, by simp [CBC.request, h200, h426]⟩
  · intro r data hbody hst
    have hcond : ¬ (r.status ≠ 200 ∧ r.status ≠ 426) := by
      rcases hst with h | h <;> simp [h]
    constructor
    · intro hreq
      by_contra htr
      simp only [Bool.not_eq_true] at htr
      simp [CBC.request, hcond, hbody, htr] at hreq
    · intro htr
      simp [CBC.request, hcond, hbody, htr]
  · intro r h200
    exact ⟨r.text, by simp [SBS.request, h200]⟩
  · intro e0 tl
    constructor
    · intro h
      rcases h with h | h
      · simp [DSCP.tracksErrorCheck, h]
      · by_cases hm : Py.containsSubstr e0.code "missingpackage" = true <;>
          simp [DSCP.tracksErrorCheck, hm, h]
    · intro hm hi
      simp [DSCP.tracksErrorCheck, hm, hi]

/-- Witness for C3: each conjunct applied at a concrete response. -/
theorem services_error_paths_witness :
    CBC.request { status := 404, body := some [], text := "nf" } =
      .error (.connectionError ("404 - nf")) ∧
    CBC.request { status := 200, body := some [("error", Py.Val.vstr "bad")], text := "" }
      = .error (.exit 1) ∧
    SBS.request { status := 500, body := none, text := "oops" } =
      .error (.connectionError "oops") ∧
    DSCP.tracksErrorCheck (some [{ code := "x.missingpackage.y" }]) =
      .error (.exit 1) ∧
    DSCP.tracksErrorCheck (some [{ code := "other" }]) =
      .error (.connectionError [{ code := "other" }]) := by
  refine ⟨?_, ?_, ?_, ?_, ?_⟩
  · obtain ⟨msg, hmsg⟩ :=
      services_error_paths.1 { status := 404, body := some [], text := "nf" }
        (by decide) (by decide)
    have h : msg = "404 - nf" := by
      simp [CBC.request] at hmsg
      exact hmsg.symm
    rw [h] at hmsg
    exact hmsg
  · exact (services_error_paths.2.1
      { status := 200, body := some [("error", Py.Val.vstr "bad")], text := "" }
      [("error", Py.Val.vstr "bad")] rfl (Or.inl rfl)).mpr (by decide)
  · obtain ⟨msg, hmsg⟩ :=
      services_error_paths.2.2.1 { status := 500, body := none, text := "oops" }
        (by decide)
    have h : msg = "oops" := by
      simp [SBS.request] at hmsg
      exact hmsg.symm
    rw [h] at hmsg
    exact hmsg
  · exact ((services_error_paths.2.2.2 { code := "x.missingpackage.y" } []).1
      (Or.inl (by decide)))
  · exact ((services_error_paths.2.2.2 { code := "other" } []).2
      (by decide) (by decide))

/-- C4: CBC.authenticate implements token refresh over the
credential-keyed cache: a missing credential raises EnvironmentError;
a cached unexpired login performs no login request and uses its
access_token; an expired cached login sends email, password and the
cached refresh_token; an empty cache slot sends email and password
only; and every successful run ends by fetching a claims token for the
access token in use and setting it as the x-claims-token session
header. -/
theorem cbc_authenticate_spec
    (loginApi : CBC.LoginPayload → CBC.LoginData)
    (accessApi : String → CBC.AccessData) (claimsApi : String → String)
    (cred : CBC.Credential)
    (login : CBC.CacheEntry CBC.LoginData)
    (tokens : CBC.CacheEntry CBC.AccessData) :
    CBC.authenticate loginApi accessApi claimsApi none login tokens =
      .error .environmentError ∧
    (∀ d, login.data = some d → login.expired = false →
      ∃ res, CBC.authenticate loginApi accessApi claimsApi (some cred) login tokens
          = .ok res ∧ res.loginRequest = none ∧ res.authTokenUsed = d.access_token) ∧
    (∀ d, login.data = some d → login.expired = true →
      ∃ res, CBC.authenticate loginApi accessApi claimsApi (some cred) login tokens
          = .ok res ∧
        res.loginRequest = some ⟨cred.username, cred.password,
          some d.refresh_token⟩) ∧
    (login.data = none →
      ∃ res, CBC.authenticate loginApi accessApi claimsApi (some cred) login tokens
          = .ok res ∧
        res.loginRequest = some ⟨cred.username, cred.password, none⟩) ∧
    (∀ c res, CBC.authenticate loginApi accessApi claimsApi c login tokens
        = .ok res → res.claimsHeader = claimsApi res.accessTokenUsed) := by
  obtain ⟨ld, le⟩ := login
  obtain ⟨td, te⟩ := tokens
  refine ⟨rfl, ?_, ?_, ?_, ?_⟩
  · rintro d hd rfl
    simp only at hd
    subst hd
    cases td <;> cases te <;>
      exact ⟨_, rfl, rfl, rfl⟩
  · rintro d hd rfl
    simp only at hd
    subst hd
    cases td <;> cases te <;>
      exact ⟨_, rfl, rfl⟩
  · rintro rfl
    cases td <;> cases te <;> cases le <;>
      exact ⟨_, rfl, rfl⟩
  · rintro (_ | c) res hres
    · exact absurd hres (by simp [CBC.authenticate])
    · cases ld <;> cases le <;> cases td <;> cases te <;>
        · simp [CBC.authenticate] at hres
          rw [← hres]

/-- Witness for C4: a concrete run of every branch. -/
theorem cbc_authenticate_spec_witness :
    (CBC.authenticate (fun _ => ⟨"at", "rt", 1⟩)
      (fun t => ⟨"acc-" ++ t, 1⟩) (fun t => "claims-" ++ t)
      none ⟨none, false⟩ ⟨none, false⟩)
      = .error .environmentError ∧
    (∃ res, CBC.authenticate (fun _ => ⟨"at", "rt", 1⟩)
      (fun t => ⟨"acc-" ++ t, 1⟩) (fun t => "claims-" ++ t)
      (some ⟨"u", "p"⟩)
      ⟨some ⟨"cat", "crt", 1⟩, false⟩
      ⟨none, false⟩ = .ok res ∧
      res.loginRequest = none ∧ res.authTokenUsed = "cat") := by
  constructor
  · exact (cbc_authenticate_spec _ _ _ ⟨"u", "p"⟩ _ _).1
  · exact (cbc_authenticate_spec _ _ _ ⟨"u", "p"⟩ _ _).2.1
      ⟨"cat", "crt", 1⟩ rfl rfl

/-- C5: CBC.get_titles classifies a parsed show response by the title
of its first season: it returns Movies exactly when that label,
lowercased, is film or movie, and Series otherwise; in both cases
every asset with isTrailer true is excluded, each remaining episode is
mapped with season int(episode.get(season, 0)) and number
int(episode.get(episode, 0)); and it raises ValueError when no title
id can be parsed from the input. -/
theorem cbc_get_titles_spec (fetch : String → CBC.ShowData) (title tid : String)
    (s0 : CBC.ShowSeason) (srest : List CBC.ShowSeason) (label : String)
    (hparse : CBC.parseTitleId title = some tid)
    (hseasons : (fetch tid).seasons = s0 :: srest)
    (hlabel : s0.title = some label) :
    (CBC.get_titles fetch title = .movies (CBC.movie_ (fetch tid)) ↔
      (Py.pyLower label = "film" ∨ Py.pyLower label = "movie")) ∧
    ((Py.pyLower label ≠ "film" ∧ Py.pyLower label ≠ "movie") →
      CBC.get_titles fetch title = .series (CBC.show_ (fetch tid))) ∧
    CBC.show_ (fetch tid) =
      (((fetch tid).seasons.flatMap (fun s => s.assets)).filter
          (fun e => !e.isTrailer)).map
        (fun e => ⟨e.id, (fetch tid).title, e.season.getD 0, e.episode.getD 0,
          e.title⟩) ∧
    CBC.movie_ (fetch tid) =
      (((fetch tid).seasons.flatMap (fun s => s.assets)).filter
          (fun m => !m.isTrailer)).map
        (fun m => ⟨m.id, (fetch tid).title⟩) ∧
    (∀ t, CBC.parseTitleId t = none → CBC.get_titles fetch t = .valueError) := by
  refine ⟨?_, ?_, ?_, ?_, ?_⟩
  · constructor
    · intro hres
      by_contra hcon
      push_neg at hcon
      obtain ⟨hf, hm⟩ := hcon
      simp [CBC.get_titles, hparse, hseasons, hlabel, hf, hm] at hres
    · intro hlm
      simp [CBC.get_titles, hparse, hseasons, hlabel, hlm]
  · intro ⟨hf, hm⟩
    simp [CBC.get_titles, hparse, hseasons, hlabel, hf, hm]
  · unfold CBC.show_
    rw [filter_flatMap_comm]
  · unfold CBC.movie_
    rw [filter_flatMap_comm]
  · intro t ht
    simp [CBC.get_titles, ht]

/-- Witness for C5: a show with a trailer asset and a film label, then
a series label. -/
theorem cbc_get_titles_spec_witness :
    CBC.get_titles (fun _ =>
        ⟨some "Show",
         [⟨some "Film", [⟨"a1", some "T", some 2, some 3, false⟩,
                         ⟨"a2", some "T2", none, none, true⟩]⟩]⟩)
      "https://gem.cbc.ca/the-babadook" =
      .movies [⟨"a1", some "Show"⟩] ∧
    CBC.get_titles (fun _ =>
        ⟨some "Show",
         [⟨some "Season 1", [⟨"a1", some "T", some 2, some 3, false⟩,
                             ⟨"a2", some "T2", none, none, true⟩]⟩]⟩)
      "murdoch-mysteries" =
      .series [⟨"a1", some "Show", 2, 3, some "T"⟩] := by
  constructor
  · have h := (cbc_get_titles_spec (fun _ =>
        ⟨some "Show",
         [⟨some "Film", [⟨"a1", some "T", some 2, some 3, false⟩,
                         ⟨"a2", some "T2", none, none, true⟩]⟩]⟩)
      "https://gem.cbc.ca/the-babadook" "the-babadook"
      ⟨some "Film", [⟨"a1", some "T", some 2, some 3, false⟩,
                     ⟨"a2", some "T2", none, none, true⟩]⟩ [] "Film"
      (by decide) rfl rfl).1.mpr (Or.inl (by decide))
    rw [h]
    rfl
  · have h := (cbc_get_titles_spec (fun _ =>
        ⟨some "Show",
         [⟨some "Season 1", [⟨"a1", some "T", some 2, some 3, false⟩,
                             ⟨"a2", some "T2", none, none, true⟩]⟩]⟩)
      "murdoch-mysteries" "murdoch-mysteries"
      ⟨some "Season 1", [⟨"a1", some "T", some 2, some 3, false⟩,
                         ⟨"a2", some "T2", none, none, true⟩]⟩ [] "Season 1"
      (by decide) rfl rfl).2.1 (by constructor <;> decide)
    rw [h]
    rfl

/-- C6: iP.get_episodes fetches episode metadata through a thread pool
bounded at 10 workers, and for every input list its result equals the
sequential map of fetch_episode over the list, in input order, with
the None results removed. -/
theorem ip_get_episodes_refinement :
    IP.max_workers = 10 ∧
    ∀ (α β : Type) (fetch : α → Option β) (episodes : List α),
      IP.get_episodes fetch episodes =
        (IP.get_episodes_sequential fetch episodes).map some := by
  refine ⟨rfl, ?_⟩
  intro α β fetch episodes
  induction episodes with
  | nil => rfl
  | cons a tl ih =>
    simp only [IP.get_episodes, IP.get_episodes_sequential, List.map_cons,
      List.filterMap_cons] at *
    cases h : fetch a <;> simp [h, ih]

/-- C7 counterexample: the CBC module is one of the six provider
modules and performs zero AES decrypt calls while serving a title
request, not one. -/
theorem services_aes_calls_counterexample :
    "CBC" ∈ Services.modules ∧ Services.aesDecryptCalls "CBC" = 0 := by
  exact ⟨by decide, rfl⟩

/-- C7 amended: MY5 performs exactly one AES decrypt call in the
course of serving a title request, and the other five provider modules
perform none. -/
theorem services_aes_calls_spec :
    Services.aesDecryptCalls "MY5" = 1 ∧
    ∀ m ∈ Services.modules, m ≠ "MY5" → Services.aesDecryptCalls m = 0 := by
  refine ⟨rfl, ?_⟩
  intro m hm hne
  simp only [Services.modules, List.mem_cons, List.mem_singleton] at hm
  rcases hm with rfl | rfl | rfl | rfl | rfl | rfl | h
  · rfl
  · rfl
  · exact absurd rfl hne
  · rfl
  · rfl
  · rfl
  · exact absurd h (List.not_mem_nil m)

/-- Witness for C7: the amended claim applied to MY5 and iP. -/
theorem services_aes_calls_spec_witness :
    Services.aesDecryptCalls "MY5" = 1 ∧ Services.aesDecryptCalls "iP" = 0 := by
  exact ⟨services_aes_calls_spec.1,
    services_aes_calls_spec.2 "iP" (by decide) (by decide)⟩

/-- C8: the quality cap of iP.get_tracks compares heights as strings:
max_quality is the lexicographic maximum of the height strings below
the string 1080 under Python string ordering, so for every connection
list whose heights are among the decimal strings 480, 576 and 720
(each lexicographically at or above 1080) max_quality is None, the
media selection finds no match, and the process exits with status 1. -/
theorem ip_quality_cap_spec (connections : List (List IP.Conn)) :
    IP.max_quality connections =
      IP.pyMaxString ((IP.qualityList connections).filter
        (fun h => Py.pyStrLt h "1080")) ∧
    ((∀ i ∈ connections, ∀ c ∈ i,
        ∃ h, c.height = some h ∧ (h = "480" ∨ h = "576" ∨ h = "720")) →
      IP.max_quality connections = none ∧
      IP.selectMedia connections = .error (.exit 1)) := by
  refine ⟨rfl, ?_⟩
  intro H
  have hfe : (IP.qualityList connections).filter
      (fun h => Py.pyStrLt h "1080") = [] := by
    apply List.filter_eq_nil_iff.mpr
    intro h hmem
    obtain ⟨i, hi, hh⟩ := List.mem_flatMap.mp hmem
    obtain ⟨c, hc, hcv⟩ := List.mem_filterMap.mp hh
    obtain ⟨v, hv, hset⟩ := H i hi c hc
    rw [hv] at hcv
    have hvh : v = h := by
      by_cases hv0 : v = ""
      · simp [hv0] at hcv
      · simpa [hv0] using hcv
    subst hvh
    rcases hset with rfl | rfl | rfl <;> decide
  have hmax : IP.max_quality connections = none := by
    unfold IP.max_quality
    rw [hfe]
    rfl
  refine ⟨hmax, ?_⟩
  have hmedia : IP.media connections = none := by
    apply List.find?_eq_none.mpr
    intro i hi hany
    obtain ⟨c, hc, hbeq⟩ := List.any_eq_true.mp hany
    obtain ⟨v, hv, _⟩ := H i hi c hc
    rw [hv, hmax] at hbeq
    simp at hbeq
  unfold IP.selectMedia
  rw [hmedia]

/-- Witness for C8: a single media list with a 480 height exits. -/
theorem ip_quality_cap_spec_witness :
    IP.max_quality [[⟨"video", some "480"⟩]] = none ∧
    IP.selectMedia [[⟨"video", some "480"⟩]] = .error (.exit 1) := by
  refine (ip_quality_cap_spec [[⟨"video", some "480"⟩]]).2 ?_
  intro i hi c hc
  simp only [List.mem_singleton] at hi
  subst hi
  simp only [List.mem_singleton] at hc
  subst hc
  exact ⟨"480", rfl, Or.inl rfl⟩

/-- C9 counterexample: an episode record whose sea_num is present with
the falsy value 0 and whose ep_num is absent.  The claim as stated
promises a TypeError from int(None), but the truthiness test on
sea_num is false, so both conversions are skipped and the number is 0
without any exception. -/
theorem my5_episode_number_counterexample :
    Py.Dict.hasKey [("sea_num", Py.Val.vint 0)] "sea_num" = true ∧
    Py.Dict.get [("sea_num", Py.Val.vint 0)] "ep_num" = Py.Val.vnone ∧
    MY5.episodeSeasonNumber [("sea_num", Py.Val.vint 0)] = .ok (0, 0) := by
  exact ⟨by decide, by decide, rfl⟩

/-- C9 amended: in the series branch of MY5.get_titles the number is
governed by sea_num rather than ep_num: for every episode record whose
sea_num is truthy and converts with int while ep_num is absent or
null, int(None) raises TypeError; and for every record without a
sea_num key the number is 0 regardless of any ep_num value. -/
theorem my5_episode_number_spec :
    (∀ (ep : Py.Dict) (n : Int),
      Py.pyInt (ep.get "sea_num") = .ok n →
      (ep.get "sea_num").truthy = true →
      ep.get "ep_num" = .vnone →
      MY5.episodeSeasonNumber ep = .error .typeError) ∧
    (∀ ep : Py.Dict, ep.hasKey "sea_num" = false →
      MY5.episodeSeasonNumber ep = .ok (0, 0)) := by
  constructor
  · intro ep n hint htr hep
    simp only [MY5.episodeSeasonNumber, htr, if_true, hint, hep]
    rfl
  · intro ep hkey
    have hget : ep.get "sea_num" = .vnone := Py.Dict.get_of_not_hasKey ep _ hkey
    unfold MY5.episodeSeasonNumber
    rw [hget]
    rfl

/-- Witness for C9: a truthy sea_num with absent ep_num raises, and an
absent sea_num with a present ep_num yields number 0. -/
theorem my5_episode_number_spec_witness :
    MY5.episodeSeasonNumber [("sea_num", Py.Val.vstr "2")] =
      .error .typeError ∧
    MY5.episodeSeasonNumber [("ep_num", Py.Val.vstr "5")] = .ok (0, 0) := by
  constructor
  · exact my5_episode_number_spec.1 [("sea_num", Py.Val.vstr "2")] 2
      rfl (by decide) (by decide)
  · exact my5_episode_number_spec.2 [("ep_num", Py.Val.vstr "5")] (by decide)

/-- C10: SBS.get_titles returns None, neither Movies nor Series and
without raising, for every input URL that matches the accepted pattern
but falls through all branches (a non-digit id with an entity type
other than tv-series and sports-series), and raises ValueError exactly
when the URL does not match the pattern at all. -/
theorem sbs_get_titles_spec :
    (∀ url e id, SBS.matchTitle url = some (e, id) →
      SBS.isdigit id = false → e ≠ "tv-series" → e ≠ "sports-series" →
      SBS.get_titles url = .noneResult) ∧
    (∀ url, SBS.get_titles url = .valueError ↔ SBS.matchTitle url = none) := by
  constructor
  · intro url e id hmatch hdigit hts hss
    simp [SBS.get_titles, hmatch, hdigit, hts, hss]
  · intro url
    constructor
    · intro hres
      cases hmatch : SBS.matchTitle url with
      | none => rfl
      | some p =>
        obtain ⟨e, id⟩ := p
        simp only [SBS.get_titles, hmatch] at hres
        by_cases h1 : (e = "movie" ∨ e = "tv-program") ∧ SBS.isdigit id = true
        · simp [h1] at hres
        · by_cases h2 : SBS.isdigit id = true
          · have h4 : ¬ (e = "movie" ∨ e = "tv-program") := fun hd => h1 ⟨hd, h2⟩
            simp [h4, h2] at hres
          · by_cases h3 : e = "tv-series" ∨ e = "sports-series"
            · simp [h1, h2, h3] at hres
            · simp [h1, h2, h3] at hres
    · intro hmatch
      simp [SBS.get_titles, hmatch]

/-- Witness for C10: the watch entity with a non-numeric id falls
through to None, and a non-matching URL raises ValueError. -/
theorem sbs_get_titles_spec_witness :
    SBS.get_titles "https://www.sbs.com.au/ondemand/watch/abc" = .noneResult ∧
    SBS.get_titles "https://example.com/other" = .valueError := by
  constructor
  · exact sbs_get_titles_spec.1 "https://www.sbs.com.au/ondemand/watch/abc"
      "watch" "abc" (by decide) (by decide) (by decide) (by decide)
  · exact (sbs_get_titles_spec.2 "https://example.com/other").mpr (by decide)
